import Mathlib

/-!
Verification of the rpchat broadcast chat server core against its
specification.  The definitions below are a shallow embedding of the C
sources: `src/src/components/rpchat_string.c`,
`src/src/components/rpchat_conn_queue.c`,
`src/src/components/rpchat_conn_info.c`, `src/src/rpchat_basic_chat_util.c`
and `src/src/rpchat_process_event.c`.  Machine integers are modelled as
`Nat`/`Int`; byte buffers as `List Nat`; fallible socket reads as `Option`;
the self-requeueing task loop as step functions returning an explicit exit
path; the registry linked list as a `List` of connection records, with a
`Nat` identity field standing for the record's address.
-/

/-! ## rplib return codes (lib/rplib/include/rplib_common.h) -/

def RPLIB_ERROR : Int := -1

def RPLIB_SUCCESS : Int := 0

def RPLIB_UNSUCCESS : Int := 1

/-! ## String component (include/components/rpchat_string.h, rpchat_string.c) -/

def RPCHAT_MAX_STR_LENGTH : Nat := 4095

def RPCHAT_FILTER_ASCII_START : Nat := 33

def RPCHAT_FILTER_ASCII_SPACE : Nat := 32

def RPCHAT_FILTER_ASCII_NEWLINE : Nat := 10

def RPCHAT_FILTER_ASCII_TAB : Nat := 9

def RPCHAT_FILTER_ASCII_END : Nat := 126

/-- A bounded string: 16-bit length plus byte contents.  In C the contents
field is a fixed `char[RPCHAT_MAX_STR_LENGTH]` array; here `contents` lists
the bytes actually stored, and readers take only the first `len` of them. -/
structure rpchat_string_t where
  len : Nat
  contents : List Nat
  deriving DecidableEq, Repr

/-- The filter predicate inside the `rpchat_string_sanitize` loop
(rpchat_string.c lines 32-37): printable ASCII 33..126, and in
control-permitting mode additionally TAB, LF and SPACE. -/
def rpchat_filter_allows (b_allow_ctrl : Bool) (curr_char : Nat) : Bool :=
  (decide (RPCHAT_FILTER_ASCII_START ≤ curr_char)
      && decide (curr_char ≤ RPCHAT_FILTER_ASCII_END))
    || (b_allow_ctrl
        && (decide (curr_char = RPCHAT_FILTER_ASCII_TAB)
            || decide (curr_char = RPCHAT_FILTER_ASCII_NEWLINE)
            || decide (curr_char = RPCHAT_FILTER_ASCII_SPACE)))

/-- Result of `rpchat_string_sanitize`: the (possibly mutated) input string,
the produced output string, and the C return code. -/
structure rpchat_sanitize_result_t where
  input_after : rpchat_string_t
  output : rpchat_string_t
  res : Int
  deriving DecidableEq, Repr

/-- Shallow embedding of `rpchat_string_sanitize` (rpchat_string.c lines
12-56).  The C function first clamps the input length field in place
(`len < RPCHAT_MAX_STR_LENGTH ? len : RPCHAT_MAX_STR_LENGTH`), then copies
every allowed byte of the first `len` input bytes to the output, appends a
NUL if the filtered output is non-empty and does not already end in one,
sets the output length to the number of bytes written, and returns
`RPLIB_SUCCESS` iff that length is positive.  (The `memset` on the output
is over `p_output_string->len` bytes just after that field was zeroed, so
it clears nothing.) -/
def rpchat_string_sanitize (p_input_string : rpchat_string_t)
    (b_allow_ctrl : Bool) : rpchat_sanitize_result_t :=
  let clamped_len : Nat :=
    if p_input_string.len < RPCHAT_MAX_STR_LENGTH then p_input_string.len
    else RPCHAT_MAX_STR_LENGTH
  let input_after : rpchat_string_t := { p_input_string with len := clamped_len }
  let filtered : List Nat :=
    (p_input_string.contents.take clamped_len).filter
      (rpchat_filter_allows b_allow_ctrl)
  let appended : Bool :=
    decide (0 < filtered.length) && !(filtered.getLast? == some 0)
  let out_contents : List Nat := if appended then filtered ++ [0] else filtered
  let output : rpchat_string_t :=
    { len := out_contents.length, contents := out_contents }
  let res : Int :=
    if 0 < output.len then RPLIB_SUCCESS else RPLIB_UNSUCCESS
  { input_after := input_after, output := output, res := res }


/-! ## Message types and status codes (include/rpchat_basic_chat_util.h) -/

def RPCHAT_BCP_REGISTER : Int := 1

def RPCHAT_BCP_SEND : Int := 2

def RPCHAT_BCP_DELIVER : Int := 3

def RPCHAT_BCP_STATUS : Int := 4

def RPCHAT_BCP_STATUS_GOOD : Nat := 0

def RPCHAT_BCP_STATUS_ERROR : Nat := 1

/-- Shallow embedding of `rpchat_get_msg_type` (rpchat_basic_chat_util.c
lines 36-60): a switch on the first buffer byte mapping 1,2,3,4 to the
four opcode constants and anything else to `RPLIB_UNSUCCESS`.  The C
return type is the `rpchat_msg_type_t` enum, but the value returned on the
default path is the integer `RPLIB_UNSUCCESS`; both are `Int` here, as
both are integers in C. -/
def rpchat_get_msg_type (opcode : Nat) : Int :=
  if opcode = 1 then RPCHAT_BCP_REGISTER
  else if opcode = 2 then RPCHAT_BCP_SEND
  else if opcode = 3 then RPCHAT_BCP_DELIVER
  else if opcode = 4 then RPCHAT_BCP_STATUS
  else RPLIB_UNSUCCESS

/-! ## Connection state and records (include/components/rpchat_conn_info.h) -/

inductive rpchat_conn_stat_t where
  | pre_register
  | available
  | send_stat
  | send_msg
  | pending_status
  | conn_err
  | closing
  deriving DecidableEq, Repr

/-- Direction tag of a task (include/rpchat_process_event.h lines 31-36).
The header declares INBOUND, OUTBOUND and INACTIVE;
`rpchat_process_event.c` compares against `RPCHAT_PROC_EVENT_HEARTBEAT`,
an identifier with no declaration under src.  Following the spec (design
note 5, which canonicalises the three-direction enum Inbound, Outbound,
Heartbeat), the third value is the heartbeat direction used by the idle
auditor (`rpchat_audit_connections` passes it as `args_type`). -/
inductive rpchat_args_proc_event_src_t where
  | inbound
  | outbound
  | heartbeat
  deriving DecidableEq, Repr

/-- Exit paths of `rpchat_task_conn_proc_event` (rpchat_process_event.c
lines 561-578).  `cleanup` and `cleanup_no_unlock` free the task args;
`requeue` and `requeue_no_unlock` resubmit the same args to the pool. -/
inductive rpchat_exit_path_t where
  | cleanup
  | cleanup_no_unlock
  | requeue
  | requeue_no_unlock
  deriving DecidableEq, Repr

/-- Per-connection record (include/components/rpchat_conn_info.h lines
31-40).  `id` stands for the record's address, used by pointer
comparisons (`p_sender_info != p_current_node->p_data`).  The socket
handle, mutex real object and the atomic counter cell are not fields
here; `pending_jobs` is passed explicitly to the steps that read it. -/
structure rpchat_conn_info_t where
  id : Nat
  conn_status : rpchat_conn_stat_t
  username : rpchat_string_t
  stat_msg : rpchat_string_t
  last_active : Int
  deriving DecidableEq, Repr

/-- Connection registry (include/components/rpchat_conn_queue.h): the
ordered list of records plus the cached server identity string. -/
structure rpchat_conn_queue_t where
  p_conn_ll : List rpchat_conn_info_t
  server_str : rpchat_string_t
  deriving DecidableEq, Repr

/-! ## Username lookup (rpchat_conn_queue.c) -/

/-- C `strncmp`: compare at most `n` bytes, stopping at the first
difference or NUL.  An exhausted list stands for a NUL terminator. -/
def strncmp : List Nat → List Nat → Nat → Int
  | _, _, 0 => 0
  | [], [], _ + 1 => 0
  | [], y :: _, _ + 1 => 0 - (y : Int)
  | x :: _, [], _ + 1 => (x : Int)
  | x :: xs, y :: ys, n + 1 =>
    if x ≠ y then (x : Int) - (y : Int)
    else if x = 0 then 0
    else strncmp xs ys n

/-- The loop of `rpchat_conn_queue_find_by_username` (rpchat_conn_queue.c
lines 95-116), verbatim: the loop counter `conn_index` runs from 0 to the
list size, but `p_tgt_node` is assigned only once before the loop and
never advanced inside it, and `cmp_size` is initialised to 0 and never
updated, so the `strncmp` always compares zero bytes.  The counter is the
recursion fuel here; the inspected node stays fixed. -/
def rpchat_conn_queue_find_go (p_tgt_node : Option rpchat_conn_info_t)
    (p_tgt_username : rpchat_string_t) : Nat → Option rpchat_conn_info_t
  | 0 => none
  | conn_index + 1 =>
    match p_tgt_node with
    | none => none
    | some p_tgt_info =>
      if p_tgt_info.username.len ≠ p_tgt_username.len then
        rpchat_conn_queue_find_go p_tgt_node p_tgt_username conn_index
      else if strncmp p_tgt_info.username.contents p_tgt_username.contents 0 = 0 then
        some p_tgt_info
      else rpchat_conn_queue_find_go p_tgt_node p_tgt_username conn_index

/-- Shallow embedding of `rpchat_conn_queue_find_by_username`
(rpchat_conn_queue.c lines 85-121). -/
def rpchat_conn_queue_find_by_username (p_conn_queue : rpchat_conn_queue_t)
    (p_tgt_username : rpchat_string_t) : Option rpchat_conn_info_t :=
  rpchat_conn_queue_find_go p_conn_queue.p_conn_ll.head? p_tgt_username
    p_conn_queue.p_conn_ll.length

/-! ## C-string helpers for the snprintf-built notices -/

/-- Bytes of a C string up to (excluding) the first NUL, as read by a
`%s` conversion. -/
def cstr (l : List Nat) : List Nat := l.takeWhile (fun c => c != 0)

/-- Model of `snprintf(buf, RPCHAT_MAX_STR_LENGTH, "<before>%s<after>", arg)`
writing into a fresh `rpchat_string_t`: the written bytes are the literal
prefix, the argument up to its NUL, and the literal suffix; snprintf
returns that byte count, which the callers store into `len`; the buffer
additionally holds the terminating NUL.  (Truncation at 4095 bytes is not
modelled; every use in the claims stays far below the buffer size.) -/
def rpchat_snprintf_str (before_arg : List Nat) (arg : List Nat)
    (after_arg : List Nat) : rpchat_string_t :=
  let written : List Nat := before_arg ++ cstr arg ++ after_arg
  ⟨written.length, written ++ [0]⟩

/-- In-order comma-separated rendering used by
`rpchat_conn_queue_list_users` (rpchat_conn_queue.c lines 135-145): the
front record is printed with format `%s`, every later one with `, %s`. -/
def rpchat_list_users_render : List rpchat_conn_info_t → Bool → List Nat
  | [], _ => []
  | p_curr_info :: rest, is_front =>
    (if is_front then [] else [44, 32]) ++ cstr p_curr_info.username.contents
      ++ rpchat_list_users_render rest false

/-- Shallow embedding of `rpchat_conn_queue_list_users`
(rpchat_conn_queue.c lines 123-151): appends the rendered usernames
starting at offset `len - 1` of the output buffer (overwriting its last
byte) and sets `len` to the final write offset. -/
def rpchat_conn_queue_list_users (p_conn_queue : rpchat_conn_queue_t)
    (p_output_buf : rpchat_string_t) : rpchat_string_t :=
  let rendered : List Nat :=
    rpchat_list_users_render p_conn_queue.p_conn_ll true
  ⟨p_output_buf.len - 1 + rendered.length,
    p_output_buf.contents.take (p_output_buf.len - 1) ++ rendered ++ [0]⟩

/-! ## Literal message bytes -/

/-- ASCII bytes of "Disconnected for inactivity.". -/
def RPCHAT_DISCONNECT_INACTIVITY_BYTES : List Nat :=
  [68, 105, 115, 99, 111, 110, 110, 101, 99, 116, 101, 100, 32, 102, 111,
   114, 32, 105, 110, 97, 99, 116, 105, 118, 105, 116, 121, 46]

/-- ASCII bytes of " has joined the server.". -/
def RPCHAT_HAS_JOINED_BYTES : List Nat :=
  [32, 104, 97, 115, 32, 106, 111, 105, 110, 101, 100, 32, 116, 104, 101,
   32, 115, 101, 114, 118, 101, 114, 46]

/-- ASCII bytes of "Logged in as ". -/
def RPCHAT_LOGGED_IN_AS_BYTES : List Nat :=
  [76, 111, 103, 103, 101, 100, 32, 105, 110, 32, 97, 115, 32]

/-- ASCII bytes of ".\nCurrent Clients: \n". -/
def RPCHAT_CURRENT_CLIENTS_BYTES : List Nat :=
  [46, 10, 67, 117, 114, 114, 101, 110, 116, 32, 67, 108, 105, 101, 110,
   116, 115, 58, 32, 10]

/-- ASCII bytes of " has left the server.". -/
def RPCHAT_HAS_LEFT_BYTES : List Nat :=
  [32, 104, 97, 115, 32, 108, 101, 102, 116, 32, 116, 104, 101, 32, 115,
   101, 114, 118, 101, 114, 46]

/-- ASCII bytes of "An unregistered user". -/
def RPCHAT_UNREGISTERED_USER_BYTES : List Nat :=
  [65, 110, 32, 117, 110, 114, 101, 103, 105, 115, 116, 101, 114, 101,
   100, 32, 117, 115, 101, 114]

/-- The cached server identity "[Server]" built by
`rpchat_conn_queue_create` (rpchat_conn_queue.c lines 24-27). -/
def RPCHAT_SERVER_STR : rpchat_string_t :=
  ⟨8, [91, 83, 101, 114, 118, 101, 114, 93, 0]⟩

/-! ## Heartbeat / inactivity check (rpchat_process_event.c lines 408-420) -/

def RPCHAT_CONNECTION_TIMEOUT : Int := 60

/-- Shallow embedding of the heartbeat fragment of
`rpchat_task_conn_proc_event` (rpchat_process_event.c lines 408-420): when
the event is a heartbeat and the connection is in neither Closing nor
Error, the code compares `RPCHAT_CONNECTION_TIMEOUT > time(0) -
last_active` and, when that holds, snprintf-writes "Disconnected for
inactivity." into `stat_msg` and sets the state to `RPCHAT_CONN_ERR`. -/
def rpchat_heartbeat_check (args_type : rpchat_args_proc_event_src_t)
    (p_conn_info : rpchat_conn_info_t) (now : Int) : rpchat_conn_info_t :=
  if args_type = rpchat_args_proc_event_src_t.heartbeat
      ∧ (p_conn_info.conn_status ≠ rpchat_conn_stat_t.closing
         ∧ p_conn_info.conn_status ≠ rpchat_conn_stat_t.conn_err) then
    if RPCHAT_CONNECTION_TIMEOUT > now - p_conn_info.last_active then
      { p_conn_info with
          stat_msg := ⟨RPCHAT_DISCONNECT_INACTIVITY_BYTES.length,
                       RPCHAT_DISCONNECT_INACTIVITY_BYTES ++ [0]⟩,
          conn_status := rpchat_conn_stat_t.conn_err }
    else p_conn_info
  else p_conn_info

/-! ## Deliver frame construction and broadcast (rpchat_process_event.c) -/

/-- Big-endian bytes of a 16-bit value, as written by `htobe16`. -/
def htobe16_bytes (n : Nat) : List Nat := [n / 256 % 256, n % 256]

/-- Shallow embedding of `rpchat_conn_proc_set_deliver`
(rpchat_process_event.c lines 219-266): sanitize the message in permissive
mode, then lay out opcode 3, the big-endian sender length, the sender
bytes, the big-endian sanitized-message length and the sanitized message
bytes. -/
def rpchat_conn_proc_set_deliver (p_sender : rpchat_string_t)
    (p_msg : rpchat_string_t) : List Nat :=
  let sanitized_msg : rpchat_string_t := (rpchat_string_sanitize p_msg true).output
  [3] ++ htobe16_bytes p_sender.len ++ p_sender.contents.take p_sender.len
    ++ htobe16_bytes sanitized_msg.len
    ++ sanitized_msg.contents.take sanitized_msg.len

/-- The broadcast loop of `rpchat_broadcast_msg` (rpchat_process_event.c
lines 780-801), verbatim: walk the node list; for a node other than the
sender whose state is Closing or Error the body executes `continue`
WITHOUT advancing `p_current_node`, so the same node is examined again;
otherwise a Deliver task for that recipient is enqueued and the node
advances.  The `Nat` argument is fuel counting loop iterations; `none`
means the iteration budget was exhausted without reaching the end of the
list, and if the loop is stuck on one node this holds for every budget. -/
def rpchat_broadcast_go (p_sender_id : Nat) (p_sender_str : rpchat_string_t)
    (sanitized_msg : rpchat_string_t) :
    Nat → List rpchat_conn_info_t → Option (List (Nat × List Nat))
  | _, [] => some []
  | 0, _ :: _ => none
  | fuel + 1, p_current_info :: rest =>
    if p_current_info.id ≠ p_sender_id then
      if p_current_info.conn_status = rpchat_conn_stat_t.closing
          ∨ p_current_info.conn_status = rpchat_conn_stat_t.conn_err then
        rpchat_broadcast_go p_sender_id p_sender_str sanitized_msg fuel
          (p_current_info :: rest)
      else
        match rpchat_broadcast_go p_sender_id p_sender_str sanitized_msg fuel rest with
        | none => none
        | some delivers =>
          some ((p_current_info.id,
                 rpchat_conn_proc_set_deliver p_sender_str sanitized_msg) :: delivers)
    else rpchat_broadcast_go p_sender_id p_sender_str sanitized_msg fuel rest

/-- Shallow embedding of `rpchat_broadcast_msg` (rpchat_process_event.c
lines 752-806): sanitize the message (permissive), fall back to the
sender's username when no sender string is passed, then run the fan-out
loop.  Returns the C result together with the list of (recipient id,
Deliver frame) pairs enqueued, or `none` when the loop does not finish
within the given fuel. -/
def rpchat_broadcast_msg (p_conn_queue : rpchat_conn_queue_t)
    (p_sender_info : rpchat_conn_info_t)
    (p_sender_str : Option rpchat_string_t) (p_msg : rpchat_string_t)
    (fuel : Nat) : Option (Int × List (Nat × List Nat)) :=
  let sanitized_msg : rpchat_string_t := (rpchat_string_sanitize p_msg true).output
  let sender_str : rpchat_string_t :=
    match p_sender_str with
    | none => p_sender_info.username
    | some s => s
  match rpchat_broadcast_go p_sender_info.id sender_str sanitized_msg fuel
      p_conn_queue.p_conn_ll with
  | none => none
  | some delivers => some (RPLIB_SUCCESS, delivers)

/-! ## Inbound message handling (rpchat_process_event.c lines 581-862) -/

/-- Model of `rpchat_recv(fd, buf, n)` drawing from an inbound byte list:
the handlers treat any read of fewer than `n` bytes as failure, so the
model returns the bytes and the rest on success and `none` otherwise. -/
def rpchat_recv (input : List Nat) (n : Nat) : Option (List Nat × List Nat) :=
  if n ≤ input.length then some (input.take n, input.drop n) else none

/-- Result of `rpchat_handle_msg` and its helpers: the C return code, the
possibly-updated connection record, and the (recipient id, Deliver frame)
tasks enqueued on the way. -/
structure rpchat_handle_msg_result_t where
  res : Int
  conn : rpchat_conn_info_t
  delivers : List (Nat × List Nat)
  deriving DecidableEq, Repr

/-- Shallow embedding of `rpchat_conn_info_handle_status`
(rpchat_process_event.c lines 807-843): fail with `RPLIB_UNSUCCESS` unless
a status is pending, read one status-code byte, and answer `RPLIB_SUCCESS`
for `RPCHAT_BCP_STATUS_GOOD` and `RPLIB_ERROR` otherwise. -/
def rpchat_conn_info_handle_status (p_conn_info : rpchat_conn_info_t)
    (input : List Nat) : Int :=
  if p_conn_info.conn_status ≠ rpchat_conn_stat_t.pending_status then
    RPLIB_UNSUCCESS
  else
    match rpchat_recv input 1 with
    | none => RPLIB_UNSUCCESS
    | some (code, _) =>
      if code = [RPCHAT_BCP_STATUS_GOOD] then RPLIB_SUCCESS else RPLIB_ERROR

/-- Shallow embedding of `rpchat_handle_send` (rpchat_process_event.c
lines 713-750): read the big-endian 16-bit length, reject lengths above
`RPCHAT_MAX_STR_LENGTH`, read that many message bytes, and broadcast the
message from the sender's username.  There is no connection-state check
anywhere in this function.  The outer `Option` is `none` when the
broadcast loop does not terminate. -/
def rpchat_handle_send (p_conn_queue : rpchat_conn_queue_t)
    (p_sender_info : rpchat_conn_info_t) (input : List Nat) (fuel : Nat) :
    Option (Int × List (Nat × List Nat)) :=
  match rpchat_recv input 2 with
  | none => some (RPLIB_UNSUCCESS, [])
  | some (len_bytes, rest) =>
    let msg_len : Nat := 256 * len_bytes.headD 0 + len_bytes.getD 1 0
    if RPCHAT_MAX_STR_LENGTH < msg_len then some (RPLIB_UNSUCCESS, [])
    else
      match rpchat_recv rest msg_len with
      | none => some (RPLIB_UNSUCCESS, [])
      | some (msg_bytes, _) =>
        rpchat_broadcast_msg p_conn_queue p_sender_info
          (some p_sender_info.username) ⟨msg_len, msg_bytes⟩ fuel

/-- Shallow embedding of `rpchat_handle_register` (rpchat_process_event.c
lines 618-711): refuse with `RPLIB_UNSUCCESS` unless the connection is in
PreRegister; read the big-endian username length and the username; strict
sanitize; refuse when `rpchat_conn_queue_find_by_username` finds an
existing record; otherwise store the sanitized username, enqueue a greeting
Deliver to the registering client (with the user list appended when the
registry holds more than one record) and broadcast the join notice from
the server identity. -/
def rpchat_handle_register (p_conn_queue : rpchat_conn_queue_t)
    (p_conn_info : rpchat_conn_info_t) (input : List Nat) (fuel : Nat) :
    Option rpchat_handle_msg_result_t :=
  if p_conn_info.conn_status ≠ rpchat_conn_stat_t.pre_register then
    some ⟨RPLIB_UNSUCCESS, p_conn_info, []⟩
  else
    match rpchat_recv input 2 with
    | none => some ⟨RPLIB_UNSUCCESS, p_conn_info, []⟩
    | some (len_bytes, rest) =>
      let name_len : Nat := 256 * len_bytes.headD 0 + len_bytes.getD 1 0
      if RPCHAT_MAX_STR_LENGTH < name_len then
        some ⟨RPLIB_UNSUCCESS, p_conn_info, []⟩
      else
        match rpchat_recv rest name_len with
        | none => some ⟨RPLIB_UNSUCCESS, p_conn_info, []⟩
        | some (name_bytes, _) =>
          let sres := rpchat_string_sanitize ⟨name_len, name_bytes⟩ false
          if sres.res ≠ RPLIB_SUCCESS then some ⟨sres.res, p_conn_info, []⟩
          else if (rpchat_conn_queue_find_by_username p_conn_queue
              sres.output).isSome then
            some ⟨RPLIB_UNSUCCESS, p_conn_info, []⟩
          else
            let conn2 : rpchat_conn_info_t :=
              { p_conn_info with username := sres.output }
            let group_reg_msg : rpchat_string_t :=
              rpchat_snprintf_str [] sres.output.contents RPCHAT_HAS_JOINED_BYTES
            let client_reg_msg0 : rpchat_string_t :=
              rpchat_snprintf_str RPCHAT_LOGGED_IN_AS_BYTES
                conn2.username.contents RPCHAT_CURRENT_CLIENTS_BYTES
            let client_reg_msg : rpchat_string_t :=
              if 1 < p_conn_queue.p_conn_ll.length then
                rpchat_conn_queue_list_users p_conn_queue client_reg_msg0
              else client_reg_msg0
            let self_deliver : Nat × List Nat :=
              (conn2.id,
               rpchat_conn_proc_set_deliver p_conn_queue.server_str client_reg_msg)
            match rpchat_broadcast_msg p_conn_queue conn2
                (some p_conn_queue.server_str) group_reg_msg fuel with
            | none => none
            | some (_, group_delivers) =>
              some ⟨RPLIB_SUCCESS, conn2, self_deliver :: group_delivers⟩

/-- Shallow embedding of `rpchat_handle_msg` (rpchat_process_event.c lines
581-616): dispatch on `rpchat_get_msg_type` of the opcode byte.  Because
the default return of `rpchat_get_msg_type` is numerically equal to
`RPCHAT_BCP_REGISTER`, an unknown opcode byte lands in the Register case.
The Register result is flattened to `RPLIB_SUCCESS`/`RPLIB_ERROR`; Deliver
falls into the default case and returns `RPLIB_ERROR`. -/
def rpchat_handle_msg (p_conn_queue : rpchat_conn_queue_t)
    (p_conn_info : rpchat_conn_info_t) (opcode : Nat) (input : List Nat)
    (fuel : Nat) : Option rpchat_handle_msg_result_t :=
  let msg_type : Int := rpchat_get_msg_type opcode
  if msg_type = RPCHAT_BCP_REGISTER then
    (rpchat_handle_register p_conn_queue p_conn_info input fuel).map
      (fun r =>
        { r with res := if r.res = RPLIB_SUCCESS then RPLIB_SUCCESS else RPLIB_ERROR })
  else if msg_type = RPCHAT_BCP_SEND then
    (rpchat_handle_send p_conn_queue p_conn_info input fuel).map
      (fun p => ⟨p.1, p_conn_info, p.2⟩)
  else if msg_type = RPCHAT_BCP_STATUS then
    some ⟨rpchat_conn_info_handle_status p_conn_info input, p_conn_info, []⟩
  else
    some ⟨RPLIB_ERROR, p_conn_info, []⟩

/-! ## Task branches of rpchat_task_conn_proc_event -/

/-- Shallow embedding of the `RPCHAT_CONN_PENDING_STATUS` inbound branch of
`rpchat_task_conn_proc_event` (rpchat_process_event.c lines 496-523
together with `rpchat_conn_proc_handle_inbound_msg`, lines 14-65): read
one opcode byte (failure is `RPLIB_ERROR`), run `rpchat_handle_msg`, and
then: on `RPLIB_ERROR` set the state to Error and requeue; on any other
result set the state to Available, re-arm the descriptor, and leave
through the `cleanup` exit (the trailing `res` check after the switch sees
a non-error result).  `none` propagates a non-terminating broadcast. -/
def rpchat_conn_proc_pending_status_inbound (p_conn_queue : rpchat_conn_queue_t)
    (p_conn_info : rpchat_conn_info_t) (input : List Nat) (fuel : Nat) :
    Option (rpchat_conn_info_t × List (Nat × List Nat) × rpchat_exit_path_t) :=
  match input with
  | [] =>
    some ({ p_conn_info with conn_status := rpchat_conn_stat_t.conn_err }, [],
      rpchat_exit_path_t.requeue)
  | opcode :: rest =>
    match rpchat_handle_msg p_conn_queue p_conn_info opcode rest fuel with
    | none => none
    | some r =>
      if r.res = RPLIB_ERROR then
        some ({ r.conn with conn_status := rpchat_conn_stat_t.conn_err },
          r.delivers, rpchat_exit_path_t.requeue)
      else
        some ({ r.conn with conn_status := rpchat_conn_stat_t.available },
          r.delivers, rpchat_exit_path_t.cleanup)

/-- Outcome of the `RPCHAT_CONN_CLOSING` branch: whether the record was
unlinked and destroyed, the exit path taken, and the Deliver tasks
enqueued for the leave notice. -/
structure rpchat_closing_result_t where
  destroyed : Bool
  exit : rpchat_exit_path_t
  delivers : List (Nat × List Nat)
  deriving DecidableEq, Repr

/-- Shallow embedding of the `RPCHAT_CONN_CLOSING` branch of
`rpchat_task_conn_proc_event` (rpchat_process_event.c lines 529-566): when
`pending_jobs` is 0, build the "<name or
An unregistered user> has left the server." notice, broadcast it from the
server identity, destroy the record and leave through `cleanup_no_unlock`.
When `pending_jobs` is not 0 the `if` body is skipped, control falls
through the `default: break` out of the switch, the trailing check sees
`res == RPLIB_SUCCESS`, and the task leaves through `cleanup`: the args
are freed and nothing is requeued. -/
def rpchat_conn_proc_closing (p_conn_queue : rpchat_conn_queue_t)
    (p_conn_info : rpchat_conn_info_t) (pending_jobs : Int) (fuel : Nat) :
    Option rpchat_closing_result_t :=
  if pending_jobs = 0 then
    let name_arg : List Nat :=
      if 0 < p_conn_info.username.len then p_conn_info.username.contents
      else RPCHAT_UNREGISTERED_USER_BYTES ++ [0]
    let dc_msg : rpchat_string_t :=
      rpchat_snprintf_str [] name_arg RPCHAT_HAS_LEFT_BYTES
    match rpchat_broadcast_msg p_conn_queue p_conn_info
        (some p_conn_queue.server_str) dc_msg fuel with
    | none => none
    | some (_, delivers) =>
      some ⟨true, rpchat_exit_path_t.cleanup_no_unlock, delivers⟩
  else some ⟨false, rpchat_exit_path_t.cleanup, []⟩

/-! ## The pending_jobs counter protocol (rpchat_conn_info.c lines 33-48,
rpchat_process_event.c lines 366-386) -/

/-- Abstract state of one record's counter protocol: the value of the
atomic `pending_jobs` cell, the number of task references submitted to the
pool whose entry decrement has not yet run (`queued`), and the number of
submissions whose pool enqueue has happened but whose
`atomic_fetch_add(&pending_jobs, 1)` has not yet executed
(`mid_submit`). -/
structure rpchat_jobs_state_t where
  pending_jobs : Int
  queued : Nat
  mid_submit : Nat
  deriving DecidableEq, Repr

/-- Atomic events of the counter protocol, read off
`rpchat_conn_info_enqueue_task` (which first calls
`rplib_tpool_enqueue_task` and only then, on success, increments the
counter) and `rpchat_task_conn_proc_event` (whose first action is
`atomic_fetch_sub(&pending_jobs, 1)`).  A failed pool enqueue changes
nothing and is omitted.  A requeue is the same `enqueue_task` call and is
covered by the submit pair. -/
inductive rpchat_jobs_step : rpchat_jobs_state_t → rpchat_jobs_state_t → Prop where
  | submit_enqueue (j : Int) (q m : Nat) :
      rpchat_jobs_step ⟨j, q, m⟩ ⟨j, q + 1, m + 1⟩
  | submit_inc (j : Int) (q m : Nat) :
      rpchat_jobs_step ⟨j, q, m + 1⟩ ⟨j + 1, q, m⟩
  | run_begin (j : Int) (q m : Nat) :
      rpchat_jobs_step ⟨j, q + 1, m⟩ ⟨j - 1, q, m⟩

/-- States reachable from a fresh record
(`rpchat_conn_info_initialize` stores 0 into `pending_jobs`; nothing is
queued and no submission is in flight). -/
def rpchat_jobs_reachable (s : rpchat_jobs_state_t) : Prop :=
  Relation.ReflTransGen rpchat_jobs_step ⟨0, 0, 0⟩ s

/-! ## Concrete records used in the claim theorems -/

/-- A registered connection "ali" in the Available state. -/
def conn_ali : rpchat_conn_info_t :=
  ⟨1, rpchat_conn_stat_t.available, ⟨4, [97, 108, 105, 0]⟩, ⟨0, []⟩, 0⟩

/-- A registered connection "bob" in the Available state. -/
def conn_bob : rpchat_conn_info_t :=
  ⟨2, rpchat_conn_stat_t.available, ⟨4, [98, 111, 98, 0]⟩, ⟨0, []⟩, 0⟩

/-- A connection "bob" that has entered the Closing state. -/
def conn_bob_closing : rpchat_conn_info_t :=
  ⟨2, rpchat_conn_stat_t.closing, ⟨4, [98, 111, 98, 0]⟩, ⟨0, []⟩, 0⟩

/-- Connection "ali" awaiting a Status answer to a Deliver. -/
def conn_ali_pending : rpchat_conn_info_t :=
  ⟨1, rpchat_conn_stat_t.pending_status, ⟨4, [97, 108, 105, 0]⟩, ⟨0, []⟩, 0⟩

/-- A record whose username is "ab", in the Available state. -/
def conn_ab : rpchat_conn_info_t :=
  ⟨3, rpchat_conn_stat_t.available, ⟨2, [97, 98]⟩, ⟨0, []⟩, 0⟩

/-- A record whose username is "ab", in the Closing state. -/
def conn_ab_closing : rpchat_conn_info_t :=
  ⟨3, rpchat_conn_stat_t.closing, ⟨2, [97, 98]⟩, ⟨0, []⟩, 0⟩

/-- A record whose username is "a". -/
def conn_a : rpchat_conn_info_t :=
  ⟨4, rpchat_conn_stat_t.available, ⟨1, [97]⟩, ⟨0, []⟩, 0⟩

/-- A record whose username is "xy", in the Available state. -/
def conn_xy : rpchat_conn_info_t :=
  ⟨5, rpchat_conn_stat_t.available, ⟨2, [120, 121]⟩, ⟨0, []⟩, 0⟩


/-- The filtered byte list built by the `rpchat_string_sanitize` loop: the
first clamped-length input bytes that pass the filter, in order.  (Named
here so the sanitiser lemmas can speak about it; it is the list of bytes
the C loop writes to the output buffer before the NUL append.) -/
def rpchat_sanitize_filtered (s : rpchat_string_t) (m : Bool) : List Nat :=
  (s.contents.take (if s.len < RPCHAT_MAX_STR_LENGTH then s.len
      else RPCHAT_MAX_STR_LENGTH)).filter (rpchat_filter_allows m)

/-! ## Claim theorems -/

/-- C1: the claim says a Heartbeat task finding `now - last_active` above
the configured timeout writes "Disconnected for inactivity." and moves
the connection to Error.  The code has the comparison inverted
(`RPCHAT_CONNECTION_TIMEOUT > time(0) - last_active`): a connection idle
for 61 s (timeout 60 s) is left untouched, while a connection idle for
0 s is the one that gets the message and the Error state. -/
theorem c1_heartbeat_inactivity_check_inverted :
    rpchat_heartbeat_check rpchat_args_proc_event_src_t.heartbeat conn_ali 61
        = conn_ali
    ∧ 61 - conn_ali.last_active > RPCHAT_CONNECTION_TIMEOUT
    ∧ (rpchat_heartbeat_check rpchat_args_proc_event_src_t.heartbeat conn_ali 0).conn_status
        = rpchat_conn_stat_t.conn_err
    ∧ conn_ali.conn_status ≠ rpchat_conn_stat_t.conn_err := by decide

/-- Helper for C2: once the broadcast loop stands on a non-sender node in
the Closing state, every further iteration re-examines the same node, so
no iteration budget suffices. -/
theorem rpchat_broadcast_go_stuck_on_closing (str msg : rpchat_string_t) :
    ∀ fuel : Nat, rpchat_broadcast_go 1 str msg fuel [conn_bob_closing] = none := by
  intro fuel
  induction fuel with
  | zero => rfl
  | succ n ih =>
    rw [rpchat_broadcast_go]
    simpa [conn_bob_closing] using ih

/-- C2: the claim says broadcast terminates for every registry state,
skipping Closing/Error records while still advancing past them.  On a
registry holding the sender and one Closing record, the loop body hits
`continue` without advancing `p_current_node` and the broadcast never
completes: it returns no deliver set under any iteration budget. -/
theorem c2_broadcast_spins_on_closing_recipient (fuel : Nat) :
    rpchat_broadcast_msg ⟨[conn_ali, conn_bob_closing], RPCHAT_SERVER_STR⟩
      conn_ali none ⟨2, [104, 105]⟩ fuel = none := by
  cases fuel with
  | zero => rfl
  | succ n =>
    have h := rpchat_broadcast_go_stuck_on_closing ⟨4, [97, 108, 105, 0]⟩
      (rpchat_string_sanitize ⟨2, [104, 105]⟩ true).output n
    simp [rpchat_broadcast_msg, rpchat_broadcast_go, conn_ali, h]

/-- C3: the claim says `find_by_username` returns only byte-for-byte
matches of equal length, finds a match wherever it sits in the registry,
and never returns a Closing record.  Because `cmp_size` stays 0 the byte
compare is vacuous, because `p_tgt_node` is never advanced only the front
record is ever examined, and there is no state check: the query "xy"
returns the front record "ab"; the same query misses an exactly matching
record sitting behind a length-mismatched front; and a Closing front
record is returned. -/
theorem c3_find_by_username_compares_nothing :
    rpchat_conn_queue_find_by_username ⟨[conn_ab], RPCHAT_SERVER_STR⟩
        ⟨2, [120, 121]⟩ = some conn_ab
    ∧ conn_ab.username.contents ≠ [120, 121]
    ∧ rpchat_conn_queue_find_by_username ⟨[conn_a, conn_xy], RPCHAT_SERVER_STR⟩
        ⟨2, [120, 121]⟩ = none
    ∧ conn_xy.username = ⟨2, [120, 121]⟩
    ∧ rpchat_conn_queue_find_by_username ⟨[conn_ab_closing], RPCHAT_SERVER_STR⟩
        ⟨2, [97, 98]⟩ = some conn_ab_closing
    ∧ conn_ab_closing.conn_status = rpchat_conn_stat_t.closing := by decide

/-- C4: the claim says any non-Status frame arriving in PendingStatus
drives the connection to Error instead of being acted on.
`rpchat_handle_send` has no state guard, so a Send frame (opcode 2,
message "hi") arriving while "ali" waits for a Status is broadcast to
"bob" and the connection returns to Available through the cleanup exit,
not to Error. -/
theorem c4_send_in_pending_status_is_processed :
    rpchat_conn_proc_pending_status_inbound
        ⟨[conn_ali_pending, conn_bob], RPCHAT_SERVER_STR⟩ conn_ali_pending
        [2, 0, 2, 104, 105] 10
      = some ({ conn_ali_pending with conn_status := rpchat_conn_stat_t.available },
          [(2, [3, 0, 4, 97, 108, 105, 0, 0, 3, 104, 105, 0])],
          rpchat_exit_path_t.cleanup)
    ∧ rpchat_conn_stat_t.available ≠ rpchat_conn_stat_t.conn_err := by decide

/-- C5 counterexample: the claim says every byte outside 1..4 maps to a
rejection value distinct from all four opcodes, but the default return
`RPLIB_UNSUCCESS` is numerically 1, the value of `RPCHAT_BCP_REGISTER`:
byte 9 classifies equal to Register. -/
theorem c5_bad_opcode_collides_with_register :
    rpchat_get_msg_type 9 = RPLIB_UNSUCCESS
    ∧ rpchat_get_msg_type 9 = RPCHAT_BCP_REGISTER := by decide

/-- C5 amended: bytes 1,2,3,4 map to Register, Send, Deliver and Status,
and every other byte maps to `RPLIB_UNSUCCESS`, a value distinct from
Send, Deliver and Status but equal to Register. -/
theorem c5_get_msg_type_amended (opcode : Nat) :
    (opcode = 1 → rpchat_get_msg_type opcode = RPCHAT_BCP_REGISTER)
    ∧ (opcode = 2 → rpchat_get_msg_type opcode = RPCHAT_BCP_SEND)
    ∧ (opcode = 3 → rpchat_get_msg_type opcode = RPCHAT_BCP_DELIVER)
    ∧ (opcode = 4 → rpchat_get_msg_type opcode = RPCHAT_BCP_STATUS)
    ∧ (opcode ≠ 1 → opcode ≠ 2 → opcode ≠ 3 → opcode ≠ 4 →
        rpchat_get_msg_type opcode = RPLIB_UNSUCCESS
        ∧ rpchat_get_msg_type opcode ≠ RPCHAT_BCP_SEND
        ∧ rpchat_get_msg_type opcode ≠ RPCHAT_BCP_DELIVER
        ∧ rpchat_get_msg_type opcode ≠ RPCHAT_BCP_STATUS
        ∧ rpchat_get_msg_type opcode = RPCHAT_BCP_REGISTER) := by
  refine ⟨?_, ?_, ?_, ?_, ?_⟩ <;> intro h1
  · simp [rpchat_get_msg_type, h1]
  · simp [rpchat_get_msg_type, h1]
  · simp [rpchat_get_msg_type, h1]
  · simp [rpchat_get_msg_type, h1]
  · intro h2 h3 h4
    simp [rpchat_get_msg_type, h1, h2, h3, h4, RPLIB_UNSUCCESS,
      RPCHAT_BCP_REGISTER, RPCHAT_BCP_SEND, RPCHAT_BCP_DELIVER, RPCHAT_BCP_STATUS]

/-- C5 witness: the amended theorem applied at bytes 9 and 2. -/
theorem c5_get_msg_type_amended_witness :
    rpchat_get_msg_type 9 = RPLIB_UNSUCCESS
    ∧ rpchat_get_msg_type 2 = RPCHAT_BCP_SEND :=
  ⟨((c5_get_msg_type_amended 9).2.2.2.2 (by decide) (by decide) (by decide)
      (by decide)).1,
   (c5_get_msg_type_amended 2).2.1 rfl⟩

/-- C6 counterexample: the claim says a run of the task on a Closing
connection with `pending_jobs` not 0 resubmits the same args.  At
`pending_jobs = 1` the branch instead falls through to the `cleanup`
exit, which frees the args and submits nothing. -/
theorem c6_closing_nonzero_jobs_does_not_requeue :
    rpchat_conn_proc_closing ⟨[conn_bob], RPCHAT_SERVER_STR⟩ conn_ali 1 10
        = some ⟨false, rpchat_exit_path_t.cleanup, []⟩
    ∧ rpchat_exit_path_t.cleanup ≠ rpchat_exit_path_t.requeue
    ∧ rpchat_exit_path_t.cleanup ≠ rpchat_exit_path_t.requeue_no_unlock := by decide

/-- C6 amended: on a Closing connection with `pending_jobs` not 0 the task
frees its args through the `cleanup` exit without requeueing, broadcasting
or destroying anything; the record is unlinked and destroyed only on a run
where `pending_jobs` is 0. -/
theorem c6_closing_branch_amended (q : rpchat_conn_queue_t)
    (conn : rpchat_conn_info_t) (pending_jobs : Int) (fuel : Nat) :
    (pending_jobs ≠ 0 →
      rpchat_conn_proc_closing q conn pending_jobs fuel
        = some ⟨false, rpchat_exit_path_t.cleanup, []⟩)
    ∧ (∀ r, rpchat_conn_proc_closing q conn pending_jobs fuel = some r →
        r.destroyed = true → pending_jobs = 0) := by
  constructor
  · intro h
    simp [rpchat_conn_proc_closing, h]
  · intro r hr hd
    by_contra hz
    simp [rpchat_conn_proc_closing, hz] at hr
    rw [← hr] at hd
    exact Bool.false_ne_true hd

/-- C6 witness: the amended theorem applied at `pending_jobs = 1` on a
concrete registry. -/
theorem c6_closing_branch_amended_witness :
    rpchat_conn_proc_closing ⟨[conn_bob], RPCHAT_SERVER_STR⟩ conn_ali 1 10
      = some ⟨false, rpchat_exit_path_t.cleanup, []⟩ :=
  (c6_closing_branch_amended ⟨[conn_bob], RPCHAT_SERVER_STR⟩ conn_ali 1 10).1
    (by decide)

/-- C7 counterexample: the claim says `pending_jobs` is never negative
under every reachable interleaving.  Because
`rpchat_conn_info_enqueue_task` increments the counter only after the
task is already visible in the pool queue, a worker can run the task's
entry decrement first: submit-enqueue then run-begin reaches
`pending_jobs = -1` with the submitter's increment still in flight. -/
theorem c7_pending_jobs_can_go_negative :
    rpchat_jobs_reachable ⟨-1, 0, 1⟩ ∧ (-1 : Int) < 0 := by
  refine ⟨?_, by decide⟩
  have h1 : rpchat_jobs_step ⟨0, 0, 0⟩ ⟨0, 1, 1⟩ :=
    rpchat_jobs_step.submit_enqueue 0 0 0
  have h2 : rpchat_jobs_step ⟨0, 1, 1⟩ ⟨-1, 0, 1⟩ := by
    have h := rpchat_jobs_step.run_begin 0 0 1
    norm_num at h
    exact h
  exact Relation.ReflTransGen.tail (Relation.ReflTransGen.single h1) h2

/-- C7 amended: in every reachable state, `pending_jobs` plus the number
of submissions whose pool enqueue has happened but whose increment has
not yet executed equals the number of submitted task references that have
not yet consumed their run-turn; each successful submission increments
the counter exactly once and each run-turn decrements it exactly once
(the requeue path performs a fresh submission, never a second decrement).
Whenever no submission is in that in-flight window, `pending_jobs` is
non-negative and equals the outstanding references exactly. -/
theorem c7_pending_jobs_invariant (s : rpchat_jobs_state_t)
    (h : rpchat_jobs_reachable s) :
    s.pending_jobs + s.mid_submit = s.queued
    ∧ (s.mid_submit = 0 → 0 ≤ s.pending_jobs
        ∧ s.pending_jobs = s.queued) := by
  unfold rpchat_jobs_reachable at h
  induction h with
  | refl => simp
  | tail hsteps hstep ih =>
    cases hstep with
    | submit_enqueue j q m => simp at ih ⊢; omega
    | submit_inc j q m => simp at ih ⊢; omega
    | run_begin j q m => simp at ih ⊢; omega

/-- C7 witness: the invariant applied to the state after one completed
submission (enqueue then increment). -/
theorem c7_pending_jobs_invariant_witness :
    (rpchat_jobs_state_t.mk 1 1 0).pending_jobs
        + (rpchat_jobs_state_t.mk 1 1 0).mid_submit
        = (rpchat_jobs_state_t.mk 1 1 0).queued
    ∧ ((rpchat_jobs_state_t.mk 1 1 0).mid_submit = 0 →
        0 ≤ (rpchat_jobs_state_t.mk 1 1 0).pending_jobs
        ∧ (rpchat_jobs_state_t.mk 1 1 0).pending_jobs
            = (rpchat_jobs_state_t.mk 1 1 0).queued) :=
  c7_pending_jobs_invariant ⟨1, 1, 0⟩ (by
    have h1 : rpchat_jobs_step ⟨0, 0, 0⟩ ⟨0, 1, 1⟩ :=
      rpchat_jobs_step.submit_enqueue 0 0 0
    have h2 : rpchat_jobs_step ⟨0, 1, 1⟩ ⟨1, 1, 0⟩ := by
      have h := rpchat_jobs_step.submit_inc 0 1 0
      norm_num at h
      exact h
    exact Relation.ReflTransGen.tail (Relation.ReflTransGen.single h1) h2)

/-- Helper: the filter set never admits a NUL byte. -/
theorem rpchat_filter_allows_zero (m : Bool) :
    rpchat_filter_allows m 0 = false := by
  cases m <;> decide

/-- Helper: a list of filter-admitted bytes is left unchanged by the
filter and never ends in a NUL. -/
theorem rpchat_filter_of_allowed (m : Bool) (F : List Nat)
    (hall : ∀ c ∈ F, rpchat_filter_allows m c = true) :
    F.filter (rpchat_filter_allows m) = F ∧ F.getLast? ≠ some 0 := by
  constructor
  · exact List.filter_eq_self.mpr hall
  · intro hlast
    obtain ⟨hne, h0⟩ := List.mem_getLast?_eq_getLast (x := 0) (by simpa using hlast)
    have hmem : 0 ∈ F := h0 ▸ List.getLast_mem hne
    have := hall 0 hmem
    rw [rpchat_filter_allows_zero] at this
    exact Bool.false_ne_true this

/-- Helper: when the filtered list is non-empty and does not end in a NUL,
the sanitiser output is that list with one NUL appended. -/
theorem rpchat_sanitize_output_pos (s : rpchat_string_t) (m : Bool)
    (hne : rpchat_sanitize_filtered s m ≠ [])
    (hlast : (rpchat_sanitize_filtered s m).getLast? ≠ some 0) :
    (rpchat_string_sanitize s m).output
      = ⟨(rpchat_sanitize_filtered s m).length + 1,
         rpchat_sanitize_filtered s m ++ [0]⟩ := by
  have hpos : 0 < (rpchat_sanitize_filtered s m).length :=
    List.length_pos.mpr hne
  have hA : (decide (0 < (rpchat_sanitize_filtered s m).length)
      && !((rpchat_sanitize_filtered s m).getLast? == some 0)) = true := by
    simp only [Bool.and_eq_true, decide_eq_true_eq, Bool.not_eq_true',
      beq_eq_false_iff_ne, ne_eq]
    exact ⟨hpos, hlast⟩
  unfold rpchat_sanitize_filtered at hA
  simp only [rpchat_string_sanitize]
  rw [if_pos hA]
  simp [rpchat_sanitize_filtered]

/-- Helper: when the filtered list is empty the sanitiser output is the
empty string. -/
theorem rpchat_sanitize_output_nil (s : rpchat_string_t) (m : Bool)
    (hnil : rpchat_sanitize_filtered s m = []) :
    (rpchat_string_sanitize s m).output = ⟨0, []⟩ := by
  unfold rpchat_sanitize_filtered at hnil
  simp [rpchat_string_sanitize, hnil]

/-- Helper: the return code of `rpchat_string_sanitize` in terms of its
output length. -/
theorem rpchat_sanitize_res_eq (s : rpchat_string_t) (m : Bool) :
    (rpchat_string_sanitize s m).res =
      if 0 < (rpchat_string_sanitize s m).output.len then RPLIB_SUCCESS
      else RPLIB_UNSUCCESS := rfl

/-- Helper: a successful sanitise produces exactly the non-empty filtered
list followed by one appended NUL, and the filtered list is within the
4095-byte bound and wholly filter-admitted. -/
theorem rpchat_sanitize_success_form (s : rpchat_string_t) (m : Bool)
    (h : (rpchat_string_sanitize s m).res = RPLIB_SUCCESS) :
    rpchat_sanitize_filtered s m ≠ []
    ∧ (rpchat_sanitize_filtered s m).length ≤ RPCHAT_MAX_STR_LENGTH
    ∧ (∀ c ∈ rpchat_sanitize_filtered s m, rpchat_filter_allows m c = true)
    ∧ (rpchat_string_sanitize s m).output
        = ⟨(rpchat_sanitize_filtered s m).length + 1,
           rpchat_sanitize_filtered s m ++ [0]⟩ := by
  have hall : ∀ c ∈ rpchat_sanitize_filtered s m,
      rpchat_filter_allows m c = true := by
    intro c hc
    unfold rpchat_sanitize_filtered at hc
    exact List.of_mem_filter hc
  have hne : rpchat_sanitize_filtered s m ≠ [] := by
    intro hnil
    rw [rpchat_sanitize_res_eq, rpchat_sanitize_output_nil s m hnil] at h
    simp [RPLIB_SUCCESS, RPLIB_UNSUCCESS] at h
  obtain ⟨hself, hlast⟩ := rpchat_filter_of_allowed m _ hall
  have hout := rpchat_sanitize_output_pos s m hne hlast
  have hlenF : (rpchat_sanitize_filtered s m).length ≤ RPCHAT_MAX_STR_LENGTH := by
    have h1 : (rpchat_sanitize_filtered s m).length
        ≤ (s.contents.take (if s.len < RPCHAT_MAX_STR_LENGTH then s.len
            else RPCHAT_MAX_STR_LENGTH)).length := by
      unfold rpchat_sanitize_filtered
      exact List.length_filter_le _ _
    have h2 : (s.contents.take (if s.len < RPCHAT_MAX_STR_LENGTH then s.len
        else RPCHAT_MAX_STR_LENGTH)).length
        ≤ (if s.len < RPCHAT_MAX_STR_LENGTH then s.len
           else RPCHAT_MAX_STR_LENGTH) := List.length_take_le _ _
    have h3 : (if s.len < RPCHAT_MAX_STR_LENGTH then s.len
        else RPCHAT_MAX_STR_LENGTH) ≤ RPCHAT_MAX_STR_LENGTH := by
      split <;> omega
    omega
  exact ⟨hne, hlenF, hall, hout⟩

/-- Helper: re-running the sanitiser loop on "filtered bytes plus NUL"
recovers exactly the filtered bytes, for every length up to the bound
(the clamp can cut off at most the trailing NUL). -/
theorem rpchat_sanitize_filtered_of_normal (F : List Nat) (m : Bool)
    (hlen : F.length ≤ RPCHAT_MAX_STR_LENGTH)
    (hall : ∀ c ∈ F, rpchat_filter_allows m c = true) :
    rpchat_sanitize_filtered ⟨F.length + 1, F ++ [0]⟩ m = F := by
  unfold rpchat_sanitize_filtered
  have hself : F.filter (rpchat_filter_allows m) = F :=
    (rpchat_filter_of_allowed m F hall).1
  by_cases hc : F.length + 1 < RPCHAT_MAX_STR_LENGTH
  · rw [if_pos hc, List.take_of_length_le (by simp)]
    rw [List.filter_append F [0], hself]
    simp [rpchat_filter_allows_zero]
  · rw [if_neg hc]
    rcases Nat.lt_or_ge F.length RPCHAT_MAX_STR_LENGTH with hlt | hge
    · rw [List.take_of_length_le (by simp; omega)]
      rw [List.filter_append F [0], hself]
      simp [rpchat_filter_allows_zero]
    · have heq : RPCHAT_MAX_STR_LENGTH = F.length := by omega
      rw [heq, List.take_left]
      exact hself

/-- Helper: sanitising a string of the normal form "admitted bytes plus
NUL" returns it unchanged, successfully. -/
theorem rpchat_sanitize_of_normal_form (F : List Nat) (m : Bool)
    (hne : F ≠ []) (hlen : F.length ≤ RPCHAT_MAX_STR_LENGTH)
    (hall : ∀ c ∈ F, rpchat_filter_allows m c = true) :
    (rpchat_string_sanitize ⟨F.length + 1, F ++ [0]⟩ m).output
        = ⟨F.length + 1, F ++ [0]⟩
    ∧ (rpchat_string_sanitize ⟨F.length + 1, F ++ [0]⟩ m).res
        = RPLIB_SUCCESS := by
  have hfilt := rpchat_sanitize_filtered_of_normal F m hlen hall
  obtain ⟨hself, hlast⟩ := rpchat_filter_of_allowed m F hall
  have hne2 : rpchat_sanitize_filtered ⟨F.length + 1, F ++ [0]⟩ m ≠ [] := by
    rw [hfilt]
    exact hne
  have hlast2 : (rpchat_sanitize_filtered ⟨F.length + 1, F ++ [0]⟩ m).getLast?
      ≠ some 0 := by
    rw [hfilt]
    exact hlast
  have hout := rpchat_sanitize_output_pos _ m hne2 hlast2
  rw [hfilt] at hout
  refine ⟨hout, ?_⟩
  rw [rpchat_sanitize_res_eq, hout]
  simp [RPLIB_SUCCESS]

/-- C8: the claim says every sanitiser output satisfies the BoundedString
invariant, length at most 4095 including the appended NUL.  On an input
of 4095 filter-admitted bytes the filtered output is 4095 bytes long and
does not end in NUL, so the NUL append makes the stored length 4096 (and
the append itself writes index 4095 of a 4095-byte array). -/
theorem c8_sanitize_output_exceeds_bound :
    (rpchat_string_sanitize ⟨4095, List.replicate 4095 97⟩ false).output.len
        = 4096
    ∧ RPCHAT_MAX_STR_LENGTH
        < (rpchat_string_sanitize ⟨4095, List.replicate 4095 97⟩ false).output.len := by
  have hlen_repl : (List.replicate 4095 97).length = 4095 :=
    List.length_replicate 4095 97
  have hall : ∀ c ∈ List.replicate 4095 97,
      rpchat_filter_allows false c = true := by
    intro c hc
    rw [List.eq_of_mem_replicate hc]
    decide
  have hfilt : rpchat_sanitize_filtered ⟨4095, List.replicate 4095 97⟩ false
      = List.replicate 4095 97 := by
    unfold rpchat_sanitize_filtered
    have h1 : ¬ ((⟨4095, List.replicate 4095 97⟩ : rpchat_string_t).len
        < RPCHAT_MAX_STR_LENGTH) := by
      show ¬ (4095 < RPCHAT_MAX_STR_LENGTH)
      unfold RPCHAT_MAX_STR_LENGTH
      omega
    rw [if_neg h1]
    show List.filter (rpchat_filter_allows false)
        (List.take RPCHAT_MAX_STR_LENGTH (List.replicate 4095 97))
        = List.replicate 4095 97
    rw [List.take_of_length_le (by rw [hlen_repl]; exact Nat.le_refl _)]
    exact List.filter_eq_self.mpr hall
  obtain ⟨hself, hlast⟩ := rpchat_filter_of_allowed false _ hall
  have hne : rpchat_sanitize_filtered ⟨4095, List.replicate 4095 97⟩ false ≠ [] := by
    rw [hfilt]
    apply List.length_pos.mp
    rw [hlen_repl]
    omega
  have hlast2 : (rpchat_sanitize_filtered ⟨4095, List.replicate 4095 97⟩ false).getLast?
      ≠ some 0 := by
    rw [hfilt]
    exact hlast
  have hout := rpchat_sanitize_output_pos _ false hne hlast2
  rw [hfilt] at hout
  rw [hout]
  have hlen4096 : ((⟨(List.replicate 4095 97).length + 1,
      List.replicate 4095 97 ++ [0]⟩ : rpchat_string_t)).len = 4096 := by
    show (List.replicate 4095 97).length + 1 = 4096
    rw [hlen_repl]
  constructor
  · exact hlen4096
  · rw [hlen4096]
    unfold RPCHAT_MAX_STR_LENGTH
    omega

/-- C9: sanitising the output of a successful sanitise, in the same mode,
returns that output unchanged (same length field and same bytes), again
successfully. -/
theorem c9_sanitize_idempotent (s : rpchat_string_t) (m : Bool)
    (h : (rpchat_string_sanitize s m).res = RPLIB_SUCCESS) :
    (rpchat_string_sanitize ((rpchat_string_sanitize s m).output) m).output
        = (rpchat_string_sanitize s m).output
    ∧ (rpchat_string_sanitize ((rpchat_string_sanitize s m).output) m).res
        = RPLIB_SUCCESS := by
  obtain ⟨hne, hlen, hall, hout⟩ := rpchat_sanitize_success_form s m h
  rw [hout]
  exact rpchat_sanitize_of_normal_form _ m hne hlen hall

/-- C9 witness: idempotence applied to the two-byte message "hi" in
permissive mode. -/
theorem c9_sanitize_idempotent_witness :
    (rpchat_string_sanitize ((rpchat_string_sanitize ⟨2, [104, 105]⟩ true).output) true).output
        = (rpchat_string_sanitize ⟨2, [104, 105]⟩ true).output
    ∧ (rpchat_string_sanitize ((rpchat_string_sanitize ⟨2, [104, 105]⟩ true).output) true).res
        = RPLIB_SUCCESS :=
  c9_sanitize_idempotent ⟨2, [104, 105]⟩ true (by decide)

/-- C10: the sanitiser mutates its input argument exactly by clamping the
stored length: an input whose length field exceeds 4095 has the field
truncated in place to 4095 with the contents untouched, and an input with
length at most 4095 is left unmodified. -/
theorem c10_sanitize_truncates_input_in_place (s : rpchat_string_t) (m : Bool) :
    (RPCHAT_MAX_STR_LENGTH < s.len →
      (rpchat_string_sanitize s m).input_after
        = ⟨RPCHAT_MAX_STR_LENGTH, s.contents⟩)
    ∧ (s.len ≤ RPCHAT_MAX_STR_LENGTH →
      (rpchat_string_sanitize s m).input_after = s) := by
  constructor
  · intro h
    have hnot : ¬ s.len < RPCHAT_MAX_STR_LENGTH := by omega
    simp [rpchat_string_sanitize, hnot]
  · intro h
    by_cases hlt : s.len < RPCHAT_MAX_STR_LENGTH
    · simp [rpchat_string_sanitize, hlt]
    · have heq : s.len = RPCHAT_MAX_STR_LENGTH := by omega
      simp [rpchat_string_sanitize, hlt, ← heq]

/-- C10 witness: the mutation theorem applied to an over-long input (length
field 5000) and to an in-bounds input (length 3). -/
theorem c10_sanitize_truncates_input_in_place_witness :
    (rpchat_string_sanitize ⟨5000, [104]⟩ true).input_after
        = ⟨RPCHAT_MAX_STR_LENGTH, [104]⟩
    ∧ (rpchat_string_sanitize ⟨3, [104, 105, 106]⟩ true).input_after
        = ⟨3, [104, 105, 106]⟩ :=
  ⟨(c10_sanitize_truncates_input_in_place ⟨5000, [104]⟩ true).1 (by decide),
   (c10_sanitize_truncates_input_in_place ⟨3, [104, 105, 106]⟩ true).2 (by decide)⟩
